import Mathlib

/-!
# Verification of the YouTube batch downloader pipeline

Shallow embedding of `youtube_downolader.py`: the per-line parser/dispatcher of
`download_youtube_videos_from_file` and the resolve/download/transcode sequence of
`download_from_youtube`.  External effects (URL validation, the media library, the
transcoder subprocess, the clock) are modelled as explicit inputs; the embedding
computes the observable decisions the script makes from them: which lines are
rejected, what string is dispatched as the job URL, which files are named, which
command line is built, and which temporary files are removed.
-/

namespace YTDL

/-- The ASCII whitespace characters removed by Python's `str.strip()`. -/
def isPySpace (c : Char) : Bool :=
  c = ' ' || c = '\t' || c = '\n' || c = '\r' || c = '\x0b' || c = '\x0c'

/-- Python `line.strip()`: drop leading and trailing whitespace (ASCII range,
which covers every character the claims exercise). -/
def pyStrip (s : String) : String :=
  String.mk (((s.data.dropWhile isPySpace).reverse.dropWhile isPySpace).reverse)

/-- Helper for `pySplitSpace`: walk the characters, cutting at every single
space, keeping empty pieces, accumulating the current piece reversed. -/
def pySplitSpaceAux : List Char → List Char → List String
  | [], acc => [String.mk acc.reverse]
  | c :: rest, acc =>
    if c = ' ' then String.mk acc.reverse :: pySplitSpaceAux rest []
    else pySplitSpaceAux rest (c :: acc)

/-- Python `s.split(" ")` (split on the one-character separator `" "`): cuts at
every single space character and keeps empty pieces, so `"".split(" ") = [""]`
and `"x  y".split(" ") = ["x", "", "y"]`.  This is the exact tokenisation of
line 45 of the source, `url = line.strip().split(" ")` (separator explicit, not
the whitespace-run splitting of a bare `split()`). -/
def pySplitSpace (s : String) : List String :=
  pySplitSpaceAux s.data []

/-- Python `repr` of a string, as embedded in `str(list)`: wraps in single
quotes.  Faithful for strings containing no quote, backslash or control
character, which covers every concrete string this development evaluates it
on; the general dispatch theorems never inspect its output. -/
def pyReprString (s : String) : String :=
  "'" ++ s ++ "'"

/-- Python `str(xs)` for a list of strings, e.g. `str(['a', 'b'])` is the text
`['a', 'b']`.  This is what line 67's `str(url)` produces whenever `url` is
still the token list rather than a plain string. -/
def pyStrList (xs : List String) : String :=
  "[" ++ String.intercalate ", " (xs.map pyReprString) ++ "]"

/-- Which guard of the batch loop rejected a line ("Bad line" is printed and the
loop continues).  `emptyTokens` is the `if not url` guard (line 46),
`tooManyTokens` the `len(url) > 2` guard (line 50) — together these are the
spec's `MalformedTokenCount`; `invalidFlag` is the two-token `else` branch
(line 58); `invalidUrl` the `len(url) == 1 and not validators.url(url[0])`
guard (line 62). -/
inductive RejectReason where
  | emptyTokens
  | tooManyTokens
  | invalidFlag
  | invalidUrl
deriving DecidableEq, Repr

/-- Outcome of one iteration of the parsing part of the batch loop: either the
line is rejected (printed, skipped) or `download_from_youtube(str(url),
ffmpeg_path, audio_only)` is invoked with the given url string and flag. -/
inductive LineOutcome where
  | rejected (reason : RejectReason)
  | dispatched (url : String) (audioOnly : Bool)
deriving DecidableEq, Repr

/-- Lines 43–67 of `download_youtube_videos_from_file`, for one input line.
`validUrl` is the external `validators.url` capability (truthiness of its
result).  The embedding keeps the source's dynamic typing honestly: `url`
starts as the token list; only the two-token branch with flag `"a"` and a
valid second token rebinds it to a string (line 57).  The final length test
`len(url) == 1` therefore measures the string's length on that path — and for
a length-1 string Python's `url[0]` is the string itself.  Every path that
reaches line 67 dispatches `str(url)`: the plain string on the rebound path,
and the Python rendering of the token list (`pyStrList`) everywhere else. -/
def processLine (validUrl : String → Bool) (line : String) : LineOutcome :=
  let url := pySplitSpace (pyStrip line)
  if url.isEmpty then .rejected .emptyTokens
  else if 2 < url.length then .rejected .tooManyTokens
  else if url.length == 2 && validUrl (url.get! 1) then
    if url.get! 0 == "a" then
      let u := url.get! 1
      if u.length == 1 && !validUrl u then .rejected .invalidUrl
      else .dispatched u true
    else .rejected .invalidFlag
  else
    if url.length == 1 && !validUrl (url.get! 0) then .rejected .invalidUrl
    else .dispatched (pyStrList url) false

/-- Python `''.join(filter(str.isdigit, s))` (line 94): the digit characters of
`s`, in order, as a string.  ASCII digits, which covers every bitrate and
resolution string the claims exercise. -/
def extractDigits (s : String) : String :=
  String.mk (s.data.filter Char.isDigit)

/-- The numeric key by which the media library's `order_by('abr')` /
`order_by('resolution')` compare attribute strings:
`int("".join(filter(str.isdigit, value)))`, e.g. `"160kbps" ↦ 160`. -/
def digitKey (s : String) : Nat :=
  (extractDigits s).data.foldl (fun n c => n * 10 + (c.toNat - 48)) 0

/-- Models the library query chain `streams.filter(...).order_by(attr).desc().first()`
(lines 93 and 101): a stable ascending sort of the filtered variants by
`digitKey` of the attribute, reversed, first element — which is exactly the
last variant in listing order whose key is maximal, computed here by a fold.
`none` when the catalog is empty: `first()` is Python `None`, and the attribute
access that follows raises. -/
def selectBest (streams : List String) : Option String :=
  match streams with
  | [] => none
  | v :: vs => some (vs.foldl (fun best x => if digitKey best ≤ digitKey x then x else best) v)

/-- Python `s.replace(old, new)` for a one-character pattern and replacement,
as in line 90: every occurrence of the character is replaced. -/
def pyReplaceChar (s : String) (old new : Char) : String :=
  String.mk (s.data.map fun c => if c = old then new else c)

/-- The external world of one `download_from_youtube` call: what the resolver,
the clock and the transcoder subprocess supply.  `audioStreams` holds the `abr`
string of each audio-only variant in the library's listing order,
`videoStreams` the `resolution` string of each video-only variant;
`timestamp` is the `datetime.now().strftime("%Y-%m-%d_%H-%M-%S")` result of
line 87; `ffmpegExitCode` is the exit status of the spawned transcoder — the
source never reads it (no `wait()`, no `returncode` check), it is carried here
only so theorems can quantify over it. -/
structure Env where
  title : String
  timestamp : String
  audioStreams : List String
  videoStreams : List String
  ffmpegExitCode : Int
deriving Repr, DecidableEq

/-- The observable record of one `download_from_youtube` call (lines 86–127):
the names it computes, the transcoder command it builds, the files it removes,
and the transcode error it raises — constantly `none`, because the source
streams the process's stdout to exhaustion and then falls straight through to
the `os.remove` calls without ever consulting the exit status. -/
structure TranscodeRun where
  selectedAbr : String
  audio_bitrate : String
  audio_filename : String
  video_filename : Option String
  output_filename : String
  command : List String
  removedFiles : List String
  transcodeError : Option Int
deriving Repr, DecidableEq

/-- Lines 86–127, `download_from_youtube(url, ffmpeg_path, audio_only)` with the
external effects drawn from `env`.  Returns `none` when the required stream
selection comes back `None` (the subsequent attribute access raises, caught by
the batch loop's `except`); otherwise the full observable record.  The order of
events follows the source: sanitise title, name the output, select audio,
canonicalise its bitrate, name and fetch the audio temp file, then in mux mode
select video, name and fetch the video temp file, build and run the mux
command and remove the video temp file — or in audio-only mode build and run
the audio command — and finally remove the audio temp file in both modes. -/
def download_from_youtube (ffmpeg_path : String) (audio_only : Bool) (env : Env) :
    Option TranscodeRun :=
  let timestamp := env.timestamp
  let video_title := pyReplaceChar (pyReplaceChar env.title ' ' '_') '/' '_'
  let output_filename :=
    if !audio_only then video_title ++ "_" ++ timestamp ++ ".mkv"
    else video_title ++ "_" ++ timestamp ++ ".mp3"
  match selectBest env.audioStreams with
  | none => none
  | some abr =>
    let audio_bitrate := extractDigits abr ++ "k"
    let audio_filename := "audio_" ++ timestamp ++ ".mp4"
    if !audio_only then
      match selectBest env.videoStreams with
      | none => none
      | some _res =>
        let video_filename := "video_" ++ timestamp ++ ".mp4"
        let command :=
          [ffmpeg_path, "-y", "-i", video_filename, "-i", audio_filename,
           "-c:v", "hevc_nvenc", "-preset", "fast", "-profile:v", "main", "-c:a", "aac",
           "-b:a", audio_bitrate, output_filename]
        some { selectedAbr := abr, audio_bitrate := audio_bitrate,
               audio_filename := audio_filename, video_filename := some video_filename,
               output_filename := output_filename, command := command,
               removedFiles := [video_filename, audio_filename], transcodeError := none }
    else
      let command :=
        [ffmpeg_path, "-y", "-i", audio_filename, "-b:a", audio_bitrate, output_filename]
      some { selectedAbr := abr, audio_bitrate := audio_bitrate,
             audio_filename := audio_filename, video_filename := none,
             output_filename := output_filename, command := command,
             removedFiles := [audio_filename], transcodeError := none }

/-- Per-line outcome recorded by the batch loop: a rejection (printed "Bad
line", next line), a completed job, or a failed job whose exception was caught
by the `except Exception` at line 68 and printed. -/
inductive JobOutcome where
  | rejection (reason : RejectReason)
  | success (url : String) (audioOnly : Bool)
  | failure (url : String) (audioOnly : Bool) (message : String)
deriving DecidableEq, Repr

/-- One iteration of the batch loop body (lines 43–69): parse the line; on a
reject branch print and continue; otherwise invoke the dispatched job inside
`try/except Exception`, so a raising job becomes a printed failure, never an
escaping exception.  `job` abstracts the body of `download_from_youtube`
together with everything it may raise. -/
def processOneLine (validUrl : String → Bool) (job : String → Bool → Except String Unit)
    (line : String) : JobOutcome :=
  match processLine validUrl line with
  | .rejected r => .rejection r
  | .dispatched u ao =>
    match job u ao with
    | .ok _ => .success u ao
    | .error e => .failure u ao e

/-- Lines 41–69, `download_youtube_videos_from_file`: the loop over the file's
lines.  `audio_only` is re-initialised at the top of every iteration, so
iterations share no state; the loop runs every line to completion. -/
def download_youtube_videos_from_file (validUrl : String → Bool)
    (job : String → Bool → Except String Unit) : List String → List JobOutcome
  | [] => []
  | l :: ls =>
    processOneLine validUrl job l :: download_youtube_videos_from_file validUrl job ls

/-- A concrete audio-only environment: the resolver lists three audio variants
out of bitrate order. -/
def envAud : Env :=
  { title := "My Song", timestamp := "2024-01-02_03-04-05",
    audioStreams := ["96kbps", "160kbps", "128kbps"], videoStreams := [],
    ffmpegExitCode := 0 }

/-- A concrete mux environment whose transcoder exits with status 1. -/
def envMux : Env :=
  { title := "a/b c", timestamp := "2024-05-06_07-08-09",
    audioStreams := ["128kbps"], videoStreams := ["720p", "1080p"],
    ffmpegExitCode := 1 }

/-- A second concrete mux environment, with a different start timestamp. -/
def envMux2 : Env :=
  { title := "Other Title", timestamp := "2099-01-01_00-00-00",
    audioStreams := ["64kbps"], videoStreams := ["480p"],
    ffmpegExitCode := 0 }

/-- The run produced on `envAud`. -/
def runAud : TranscodeRun := (download_from_youtube "ffmpeg" true envAud).get (by decide)

/-- The run produced on `envMux`. -/
def runMux : TranscodeRun := (download_from_youtube "ffmpeg" false envMux).get (by decide)

/-- The run produced on `envMux2`. -/
def runMux2 : TranscodeRun := (download_from_youtube "ffmpeg" false envMux2).get (by decide)

/-- Helper for `specWhitespaceSplit`: collect maximal runs of non-whitespace
characters, dropping empty runs. -/
def specWhitespaceSplitAux : List Char → List Char → List String
  | [], acc => if acc.isEmpty then [] else [String.mk acc.reverse]
  | c :: rest, acc =>
    if isPySpace c then
      if acc.isEmpty then specWhitespaceSplitAux rest []
      else String.mk acc.reverse :: specWhitespaceSplitAux rest []
    else specWhitespaceSplitAux rest (c :: acc)

/-- Whitespace tokenisation as §4.1 of the specification words it ("split the
trimmed line on whitespace", i.e. Python's bare `split()`: maximal
whitespace-separated runs, no empty tokens).  Defined only to compare the
specification's wording with the source's single-space `pySplitSpace`. -/
def specWhitespaceSplit (s : String) : List String :=
  specWhitespaceSplitAux s.data []

/-! ## General lemmas about the embedded operations -/

theorem pySplitSpaceAux_ne_nil (cs : List Char) : ∀ acc, pySplitSpaceAux cs acc ≠ [] := by
  induction cs with
  | nil => intro acc; simp [pySplitSpaceAux]
  | cons c rest ih =>
    intro acc
    unfold pySplitSpaceAux
    split
    · simp
    · exact ih (c :: acc)

/-- Python's `split(" ")` never returns an empty list: even `""` splits to
`[""]`. -/
theorem pySplitSpace_ne_nil (s : String) : pySplitSpace s ≠ [] :=
  pySplitSpaceAux_ne_nil s.data []

theorem pick_mem (vs : List String) : ∀ v,
    vs.foldl (fun best x => if digitKey best ≤ digitKey x then x else best) v ∈ v :: vs := by
  induction vs with
  | nil => intro v; simp
  | cons w ws ih =>
    intro v
    simp only [List.foldl_cons]
    have h := ih (if digitKey v ≤ digitKey w then w else v)
    rw [List.mem_cons] at h
    rcases h with h | h
    · rw [h]
      split <;> simp
    · exact List.mem_cons_of_mem _ (List.mem_cons_of_mem _ h)

theorem pick_max (vs : List String) : ∀ v x, x ∈ v :: vs →
    digitKey x ≤ digitKey (vs.foldl (fun best y => if digitKey best ≤ digitKey y then y else best) v) := by
  induction vs with
  | nil =>
    intro v x hx
    simp at hx
    subst hx
    exact le_refl _
  | cons w ws ih =>
    intro v x hx
    simp only [List.foldl_cons]
    have hvle : digitKey v ≤ digitKey (if digitKey v ≤ digitKey w then w else v) := by
      split
      · assumption
      · exact le_refl _
    have hwle : digitKey w ≤ digitKey (if digitKey v ≤ digitKey w then w else v) := by
      split
      · exact le_refl _
      · exact le_of_not_le (by assumption)
    have hhead := ih (if digitKey v ≤ digitKey w then w else v)
      (if digitKey v ≤ digitKey w then w else v) (List.mem_cons_self _ _)
    rcases List.mem_cons.mp hx with h | h
    · subst h; exact le_trans hvle hhead
    · rcases List.mem_cons.mp h with h2 | h2
      · subst h2; exact le_trans hwle hhead
      · exact ih _ x (List.mem_cons_of_mem _ h2)

/-- The variant returned by the `order_by(…).desc().first()` chain is one of
the listed variants and carries the maximal numeric key among them. -/
theorem selectBest_spec (streams : List String) (s : String) (h : selectBest streams = some s) :
    s ∈ streams ∧ ∀ v ∈ streams, digitKey v ≤ digitKey s := by
  cases streams with
  | nil => simp [selectBest] at h
  | cons v vs =>
    simp only [selectBest, Option.some.injEq] at h
    subst h
    exact ⟨pick_mem vs v, fun x hx => pick_max vs v x hx⟩

/-- Line 90's double `replace` is exactly the character map that sends every
space and every `'/'` to `'_'` and fixes everything else. -/
theorem sanitize_eq_map (t : String) :
    pyReplaceChar (pyReplaceChar t ' ' '_') '/' '_'
      = String.mk (t.data.map fun c => if c = ' ' ∨ c = '/' then '_' else c) := by
  unfold pyReplaceChar
  apply congrArg String.mk
  show (t.data.map _).map _ = _
  rw [List.map_map]
  apply List.map_congr_left
  intro c _
  by_cases h1 : c = ' ' <;> by_cases h2 : c = '/' <;> simp [h1, h2, Function.comp]

/-- Wrapping distinct strings in a common prefix and suffix keeps them
distinct. -/
theorem wrap_ne_of_ne (pre suf : String) (t1 t2 : String) (h : t1 ≠ t2) :
    pre ++ t1 ++ suf ≠ pre ++ t2 ++ suf := by
  intro he
  apply h
  have hd : (pre ++ t1 ++ suf).data = (pre ++ t2 ++ suf).data := congrArg String.data he
  simp only [String.data_append] at hd
  have h2 := List.append_cancel_right hd
  have h3 := List.append_cancel_left h2
  cases t1; cases t2; exact congrArg String.mk h3

/-- Full characterisation of a successful `download_from_youtube` run: which
variant is selected, how its bitrate is canonicalised, how every file is
named, the exact transcoder command, which temporary files are removed, and
that no transcode error is ever produced. -/
theorem download_from_youtube_spec (p : String) (ao : Bool) (env : Env) (run : TranscodeRun)
    (h : download_from_youtube p ao env = some run) :
    selectBest env.audioStreams = some run.selectedAbr ∧
    run.audio_bitrate = extractDigits run.selectedAbr ++ "k" ∧
    run.audio_filename = "audio_" ++ env.timestamp ++ ".mp4" ∧
    run.video_filename = (if ao then none else some ("video_" ++ env.timestamp ++ ".mp4")) ∧
    run.output_filename =
      pyReplaceChar (pyReplaceChar env.title ' ' '_') '/' '_' ++ "_" ++ env.timestamp
        ++ (if ao then ".mp3" else ".mkv") ∧
    run.command =
      (if ao then [p, "-y", "-i", run.audio_filename, "-b:a", run.audio_bitrate, run.output_filename]
       else [p, "-y", "-i", "video_" ++ env.timestamp ++ ".mp4", "-i", run.audio_filename,
             "-c:v", "hevc_nvenc", "-preset", "fast", "-profile:v", "main", "-c:a", "aac",
             "-b:a", run.audio_bitrate, run.output_filename]) ∧
    run.removedFiles =
      (if ao then [run.audio_filename]
       else ["video_" ++ env.timestamp ++ ".mp4", run.audio_filename]) ∧
    run.transcodeError = none := by
  cases ao with
  | false =>
    simp only [download_from_youtube, Bool.not_false, if_true] at h
    cases ha : selectBest env.audioStreams with
    | none => rw [ha] at h; simp at h
    | some abr =>
      rw [ha] at h
      cases hv : selectBest env.videoStreams with
      | none => rw [hv] at h; simp at h
      | some res =>
        rw [hv] at h
        rw [Option.some.injEq] at h
        subst h
        simp [ha]
  | true =>
    simp only [download_from_youtube, Bool.not_true, if_false] at h
    cases ha : selectBest env.audioStreams with
    | none => rw [ha] at h; simp at h
    | some abr =>
      rw [ha] at h
      simp only [Bool.false_eq_true, if_false, Option.some.injEq] at h
      subst h
      simp [ha]

/-! ## The claims -/

/-- C1: a two-token line `a <URL>` with a valid URL is dispatched with the URL
token and `audioOnly = true`, as claimed — but a one-token line holding a valid
URL is NOT dispatched with that token: `url` is still the token list at line
67, so `str(url)` hands `download_from_youtube` the Python rendering of the
one-element list, which differs from the token. -/
theorem c1_one_token_line_dispatches_stringified_list :
    processLine (fun s => s == "https://example.com/video") "https://example.com/video"
      = .dispatched "['https://example.com/video']" false ∧
    "['https://example.com/video']" ≠ "https://example.com/video" ∧
    processLine (fun s => s == "https://example.com/video") "a https://example.com/video"
      = .dispatched "https://example.com/video" true := by decide

/-- C2: a two-token line whose first token is not `"a"` is rejected as claimed
when the second token is a valid URL — but when the second token is NOT a
valid URL the `len(url) == 2 and validators.url(url[1])` guard is skipped as a
whole, no rejection branch fires, and the line is dispatched downstream with
the stringified token list, contradicting the claim's "regardless of whether
the second token is a valid URL". -/
theorem c2_two_token_invalid_url_line_dispatched :
    processLine (fun s => s == "https://example.com/video") "b https://example.com/video"
      = .rejected .invalidFlag ∧
    processLine (fun s => s == "https://example.com/video") "b notaurl"
      = .dispatched "['b', 'notaurl']" false := by decide

/-- C3 (counterexample): a MuxAV run whose transcoder exits with status 1
produces no `TranscodeError` and still removes both temporary input files —
the source never inspects the exit status, so cleanup is not conditioned on a
zero exit code as the claim states. -/
theorem c3_claim_counterexample :
    ∃ run, download_from_youtube "ffmpeg" false
        { title := "t", timestamp := "T", audioStreams := ["128kbps"],
          videoStreams := ["1080p"], ffmpegExitCode := 1 } = some run ∧
      run.transcodeError = none ∧
      run.removedFiles = ["video_T.mp4", "audio_T.mp4"] :=
  ⟨_, rfl, rfl, rfl⟩

/-- C3 (amended): the transcode step never raises a `TranscodeError` — the
exit status is never examined — and the temporary inputs are deleted
unconditionally once the transcoder's output stream is exhausted, whatever the
exit status: the audio temp file in both modes, the video temp file exactly in
MuxAV mode. -/
theorem c3_amended_no_exit_check_unconditional_cleanup (p : String) (ao : Bool) (env : Env)
    (run : TranscodeRun) (h : download_from_youtube p ao env = some run) :
    run.transcodeError = none ∧
    run.removedFiles =
      (if ao then [run.audio_filename]
       else ["video_" ++ env.timestamp ++ ".mp4", run.audio_filename]) ∧
    run.video_filename = (if ao then none else some ("video_" ++ env.timestamp ++ ".mp4")) := by
  obtain ⟨-, -, -, h4, -, -, h7, h8⟩ := download_from_youtube_spec p ao env run h
  exact ⟨h8, h7, h4⟩

/-- C3 (witness): the amended statement evaluated on the concrete MuxAV
environment whose transcoder exits with status 1. -/
theorem c3_amended_cleanup_witness :
    runMux.transcodeError = none ∧
    runMux.removedFiles = ["video_" ++ envMux.timestamp ++ ".mp4", runMux.audio_filename] ∧
    runMux.video_filename = some ("video_" ++ envMux.timestamp ++ ".mp4") := by
  have h := c3_amended_no_exit_check_unconditional_cleanup "ffmpeg" false envMux runMux rfl
  simpa using h

/-- C4: the batch loop runs every line to completion, producing exactly one
outcome per input line (the run is the pointwise map of the per-line step over
the lines), and an exception raised by a dispatched job is caught at the
per-job boundary and recorded as a failure carrying its message, after which
the loop — being that same pointwise map — continues with the remaining
lines. -/
theorem c4_batch_processes_every_line (validUrl : String → Bool)
    (job : String → Bool → Except String Unit) (lines : List String) :
    download_youtube_videos_from_file validUrl job lines
      = lines.map (processOneLine validUrl job) ∧
    (download_youtube_videos_from_file validUrl job lines).length = lines.length ∧
    (∀ line u ao e, processLine validUrl line = .dispatched u ao →
      job u ao = .error e →
      processOneLine validUrl job line = .failure u ao e) := by
  refine ⟨?_, ?_, ?_⟩
  · induction lines with
    | nil => rfl
    | cons l ls ih => simp [download_youtube_videos_from_file, ih]
  · induction lines with
    | nil => rfl
    | cons l ls ih => simp [download_youtube_videos_from_file, ih]
  · intro line u ao e hd hj
    simp [processOneLine, hd, hj]

/-- C4 (witness): a two-line file in which the second line is dispatched and
its job raises; the batch still maps both lines to outcomes and the raising
job becomes a failure outcome with its message. -/
theorem c4_batch_processes_every_line_witness :
    download_youtube_videos_from_file (fun s => s == "u") (fun _ _ => Except.error "boom")
        ["x y z", "b notaurl"]
      = List.map (processOneLine (fun s => s == "u") (fun _ _ => Except.error "boom"))
        ["x y z", "b notaurl"] ∧
    processOneLine (fun s => s == "u") (fun _ _ => Except.error "boom") "b notaurl"
      = .failure "['b', 'notaurl']" false "boom" :=
  ⟨(c4_batch_processes_every_line (fun s => s == "u") (fun _ _ => Except.error "boom")
      ["x y z", "b notaurl"]).1,
   (c4_batch_processes_every_line (fun s => s == "u") (fun _ _ => Except.error "boom")
      ["x y z", "b notaurl"]).2.2 "b notaurl" "['b', 'notaurl']" false "boom" (by decide) rfl⟩

/-- C5 (counterexample): the parser does not split on whitespace — it splits
on single space characters only.  On the tab-separated line `a<TAB>url` the
whitespace tokenisation of the claim yields the two tokens `["a", url]`
(which the claim would dispatch as an audio job), but the source's
`split(" ")` yields one tab-containing token, which fails URL validation and
is rejected. -/
theorem c5_claim_counterexample :
    pySplitSpace (pyStrip "a\thttps://example.com/v")
      ≠ specWhitespaceSplit (pyStrip "a\thttps://example.com/v") ∧
    specWhitespaceSplit (pyStrip "a\thttps://example.com/v") = ["a", "https://example.com/v"] ∧
    processLine (fun s => s == "https://example.com/v") "a\thttps://example.com/v"
      = .rejected .invalidUrl := by decide

/-- C5 (amended): the parser splits the trimmed line on single space
characters (not on general whitespace), and every line with more than two of
those tokens is rejected at the token-count guard, with no job dispatched —
the outcome is a rejection for every possible job capability. -/
theorem c5_amended_space_tokenisation (validUrl : String → Bool)
    (job : String → Bool → Except String Unit) (line : String)
    (h : 2 < (pySplitSpace (pyStrip line)).length) :
    processOneLine validUrl job line = .rejection .tooManyTokens := by
  have hne : (pySplitSpace (pyStrip line)).isEmpty = false := by
    cases hc : pySplitSpace (pyStrip line) with
    | nil => exact absurd hc (pySplitSpace_ne_nil _)
    | cons a l => rfl
  simp [processOneLine, processLine, hne, h]

/-- C5 (witness): the amended statement evaluated on the three-token line
`x y z`. -/
theorem c5_amended_space_tokenisation_witness :
    2 < (pySplitSpace (pyStrip "x y z")).length ∧
    processOneLine (fun _ => false) (fun _ _ => Except.ok ()) "x y z"
      = .rejection .tooManyTokens :=
  ⟨by decide, c5_amended_space_tokenisation (fun _ => false) (fun _ _ => Except.ok ()) "x y z"
    (by decide)⟩

/-- C6: the selected audio variant is one of the listed audio-only variants
and carries the maximal numeric bitrate key among them; its bitrate string is
canonicalised by extracting the digits and appending `"k"`; and that canonical
string is the argument the built command passes right after `-b:a`. -/
theorem c6_highest_bitrate_selected_and_canonicalised (p : String) (ao : Bool) (env : Env)
    (run : TranscodeRun) (h : download_from_youtube p ao env = some run) :
    run.selectedAbr ∈ env.audioStreams ∧
    (∀ v ∈ env.audioStreams, digitKey v ≤ digitKey run.selectedAbr) ∧
    run.audio_bitrate = extractDigits run.selectedAbr ++ "k" ∧
    ∃ pre, run.command = pre ++ ["-b:a", run.audio_bitrate, run.output_filename] := by
  obtain ⟨h1, h2, -, -, -, h6, -, -⟩ := download_from_youtube_spec p ao env run h
  obtain ⟨hmem, hmax⟩ := selectBest_spec _ _ h1
  refine ⟨hmem, hmax, h2, ?_⟩
  cases ao with
  | true =>
    refine ⟨[p, "-y", "-i", run.audio_filename], ?_⟩
    simpa using h6
  | false =>
    refine ⟨[p, "-y", "-i", "video_" ++ env.timestamp ++ ".mp4", "-i", run.audio_filename,
      "-c:v", "hevc_nvenc", "-preset", "fast", "-profile:v", "main", "-c:a", "aac"], ?_⟩
    simpa using h6

/-- C6 (witness): on the catalog `["96kbps", "160kbps", "128kbps"]` the
selected variant is `"160kbps"` and the `-b:a` value is `"160k"`. -/
theorem c6_highest_bitrate_witness :
    (runAud.selectedAbr ∈ envAud.audioStreams ∧
     (∀ v ∈ envAud.audioStreams, digitKey v ≤ digitKey runAud.selectedAbr) ∧
     runAud.audio_bitrate = extractDigits runAud.selectedAbr ++ "k" ∧
     ∃ pre, runAud.command = pre ++ ["-b:a", runAud.audio_bitrate, runAud.output_filename]) ∧
    runAud.selectedAbr = "160kbps" ∧ runAud.audio_bitrate = "160k" :=
  ⟨c6_highest_bitrate_selected_and_canonicalised "ffmpeg" true envAud runAud rfl,
   by decide, by decide⟩

/-- C7: the built transcoder invocation is exactly the fixed positional
template of its mode — executable, then
`[-y, -i, video, -i, audio, -c:v, hevc_nvenc, -preset, fast, -profile:v,
main, -c:a, aac, -b:a, bitrate, output]` when muxing, and
`[-y, -i, audio, -b:a, bitrate, output]` when audio-only. -/
theorem c7_command_is_fixed_template (p : String) (ao : Bool) (env : Env)
    (run : TranscodeRun) (h : download_from_youtube p ao env = some run) :
    (ao = true → run.command =
      [p, "-y", "-i", run.audio_filename, "-b:a", run.audio_bitrate, run.output_filename]) ∧
    (ao = false → ∃ v, run.video_filename = some v ∧ run.command =
      [p, "-y", "-i", v, "-i", run.audio_filename, "-c:v", "hevc_nvenc", "-preset", "fast",
       "-profile:v", "main", "-c:a", "aac", "-b:a", run.audio_bitrate, run.output_filename]) := by
  obtain ⟨-, -, -, h4, -, h6, -, -⟩ := download_from_youtube_spec p ao env run h
  constructor
  · intro hao
    subst hao
    simpa using h6
  · intro hao
    subst hao
    refine ⟨"video_" ++ env.timestamp ++ ".mp4", ?_, ?_⟩
    · simpa using h4
    · simpa using h6

/-- C7 (witness): the mux template evaluated on the concrete mux
environment. -/
theorem c7_command_template_witness :
    ∃ v, runMux.video_filename = some v ∧ runMux.command =
      ["ffmpeg", "-y", "-i", v, "-i", runMux.audio_filename, "-c:v", "hevc_nvenc", "-preset",
       "fast", "-profile:v", "main", "-c:a", "aac", "-b:a", runMux.audio_bitrate,
       runMux.output_filename] :=
  (c7_command_is_fixed_template "ffmpeg" false envMux runMux rfl).2 rfl

/-- C8: the final output file is named
`<sanitizedTitle>_<timestamp>.<ext>` with `ext = mp3` in audio-only mode and
`mkv` in mux mode, where the sanitised title is the source title with every
space and every `'/'` (the path-separator character the source handles)
mapped to an underscore and all other characters unchanged. -/
theorem c8_output_file_naming (p : String) (ao : Bool) (env : Env)
    (run : TranscodeRun) (h : download_from_youtube p ao env = some run) :
    run.output_filename =
      pyReplaceChar (pyReplaceChar env.title ' ' '_') '/' '_' ++ "_" ++ env.timestamp
        ++ (if ao then ".mp3" else ".mkv") ∧
    pyReplaceChar (pyReplaceChar env.title ' ' '_') '/' '_'
      = String.mk (env.title.data.map fun c => if c = ' ' ∨ c = '/' then '_' else c) := by
  obtain ⟨-, -, -, -, h5, -, -, -⟩ := download_from_youtube_spec p ao env run h
  exact ⟨h5, sanitize_eq_map env.title⟩

/-- C8 (witness): on the title `"a/b c"` with timestamp
`2024-05-06_07-08-09` in mux mode the output file is
`a_b_c_2024-05-06_07-08-09.mkv`. -/
theorem c8_output_file_naming_witness :
    (runMux.output_filename =
      pyReplaceChar (pyReplaceChar envMux.title ' ' '_') '/' '_' ++ "_" ++ envMux.timestamp
        ++ (if false then ".mp3" else ".mkv") ∧
     pyReplaceChar (pyReplaceChar envMux.title ' ' '_') '/' '_'
      = String.mk (envMux.title.data.map fun c => if c = ' ' ∨ c = '/' then '_' else c)) ∧
    runMux.output_filename = "a_b_c_2024-05-06_07-08-09.mkv" :=
  ⟨c8_output_file_naming "ffmpeg" false envMux runMux rfl, by decide⟩

/-- C9 (counterexample): two distinct jobs — different titles, different
resolved catalogs, hence different final outputs — whose second-resolution
start timestamps coincide are given the SAME temporary audio path: the
temporary names depend only on the timestamp, so sequential jobs can
collide. -/
theorem c9_claim_counterexample :
    ∃ r1 r2,
      download_from_youtube "ffmpeg" true
        { title := "first", timestamp := "2024-01-01_00-00-00",
          audioStreams := ["128kbps"], videoStreams := [], ffmpegExitCode := 0 } = some r1 ∧
      download_from_youtube "ffmpeg" true
        { title := "second", timestamp := "2024-01-01_00-00-00",
          audioStreams := ["64kbps"], videoStreams := [], ffmpegExitCode := 0 } = some r2 ∧
      r1.output_filename ≠ r2.output_filename ∧
      r1.audio_filename = r2.audio_filename :=
  ⟨_, _, rfl, rfl, by decide, by decide⟩

/-- C9 (amended): the temporary paths are `audio_<timestamp>.mp4` and
`video_<timestamp>.mp4`, so two jobs' temporary files are distinct exactly
when their start timestamps differ: under distinct timestamps the audio temp
paths differ and so do the video temp paths. -/
theorem c9_amended_distinct_timestamps_distinct_temp_paths (p1 p2 : String) (ao1 ao2 : Bool)
    (env1 env2 : Env) (r1 r2 : TranscodeRun)
    (h1 : download_from_youtube p1 ao1 env1 = some r1)
    (h2 : download_from_youtube p2 ao2 env2 = some r2)
    (hts : env1.timestamp ≠ env2.timestamp) :
    r1.audio_filename ≠ r2.audio_filename ∧
    ∀ v1 v2, r1.video_filename = some v1 → r2.video_filename = some v2 → v1 ≠ v2 := by
  obtain ⟨-, -, ha1, hv1, -, -, -, -⟩ := download_from_youtube_spec p1 ao1 env1 r1 h1
  obtain ⟨-, -, ha2, hv2, -, -, -, -⟩ := download_from_youtube_spec p2 ao2 env2 r2 h2
  constructor
  · rw [ha1, ha2]
    exact wrap_ne_of_ne "audio_" ".mp4" _ _ hts
  · intro v1 v2 hx1 hx2
    rw [hv1] at hx1
    rw [hv2] at hx2
    cases ao1 with
    | true => simp at hx1
    | false =>
      cases ao2 with
      | true => simp at hx2
      | false =>
        simp at hx1 hx2
        rw [← hx1, ← hx2]
        exact wrap_ne_of_ne "video_" ".mp4" _ _ hts

/-- C9 (amended, witness): the two concrete mux environments have different
timestamps, and indeed neither their audio nor their video temporary paths
coincide. -/
theorem c9_amended_distinct_timestamps_witness :
    runMux.audio_filename ≠ runMux2.audio_filename ∧
    ∀ v1 v2, runMux.video_filename = some v1 → runMux2.video_filename = some v2 → v1 ≠ v2 :=
  c9_amended_distinct_timestamps_distinct_temp_paths "ffmpeg" "ffmpeg" false false
    envMux envMux2 runMux runMux2 rfl rfl (by decide)

/-- C10: `split(" ")` always yields at least one token, so the zero-token
rejection branch (`if not url`) is unreachable — no line is ever rejected
through it — and an empty or whitespace-only line, whose single token is the
empty string, is rejected by the URL-validity guard instead and never
dispatched. -/
theorem c10_zero_token_branch_unreachable (validUrl : String → Bool)
    (job : String → Bool → Except String Unit) :
    (∀ line, processLine validUrl line ≠ .rejected .emptyTokens) ∧
    (∀ line, pyStrip line = "" → validUrl "" = false →
      processOneLine validUrl job line = .rejection .invalidUrl) := by
  constructor
  · intro line
    have hne : (pySplitSpace (pyStrip line)).isEmpty = false := by
      cases hc : pySplitSpace (pyStrip line) with
      | nil => exact absurd hc (pySplitSpace_ne_nil _)
      | cons a l => rfl
    unfold processLine
    simp only [hne, Bool.false_eq_true, if_false]
    split
    · simp
    · split
      · split
        · split <;> simp
        · simp
      · split
        · simp
        · simp
  · intro line hblank hempty
    have hsplit : pySplitSpace (pyStrip line) = [""] := by
      rw [hblank]
      rfl
    simp [processOneLine, processLine, hsplit, hempty]

/-- C10 (witness): the whitespace-only line `" \t "` is not rejected through
the zero-token branch; it is rejected by the URL-validity guard. -/
theorem c10_zero_token_branch_unreachable_witness :
    processLine (fun _ => false) " \t " ≠ .rejected .emptyTokens ∧
    (pyStrip " \t " = "" ∧
     processOneLine (fun _ => false) (fun _ _ => Except.ok ()) " \t "
       = .rejection .invalidUrl) :=
  ⟨(c10_zero_token_branch_unreachable (fun _ => false) (fun _ _ => Except.ok ())).1 " \t ",
   by decide,
   (c10_zero_token_branch_unreachable (fun _ => false) (fun _ _ => Except.ok ())).2 " \t "
     (by decide) rfl⟩

end YTDL

section Scratch
open YTDL

example :
    processLine (fun s => s == "https://example.com/video") "https://example.com/video"
      = .dispatched "['https://example.com/video']" false := by decide

example :
    processLine (fun s => s == "https://example.com/video") "a https://example.com/video"
      = .dispatched "https://example.com/video" true := by decide

example :
    processLine (fun s => s == "https://example.com/video") "b notaurl"
      = .dispatched "['b', 'notaurl']" false := by decide

example :
    processLine (fun s => s == "https://example.com/video") "b https://example.com/video"
      = .rejected .invalidFlag := by decide

example :
    processLine (fun _ => false) "   " = .rejected .invalidUrl := by decide

example :
    processLine (fun _ => false) "x y z" = .rejected .tooManyTokens := by decide

example : selectBest ["96kbps", "160kbps", "128kbps"] = some "160kbps" := by decide

example : extractDigits "160kbps" ++ "k" = "160k" := by decide

example :
    (download_from_youtube "ffmpeg" true
      { title := "My Song", timestamp := "2024-01-02_03-04-05",
        audioStreams := ["96kbps", "160kbps", "128kbps"], videoStreams := [],
        ffmpegExitCode := 1 }).map (fun r => (r.output_filename, r.command, r.removedFiles))
      = some ("My_Song_2024-01-02_03-04-05.mp3",
         ["ffmpeg", "-y", "-i", "audio_2024-01-02_03-04-05.mp4", "-b:a", "160k",
          "My_Song_2024-01-02_03-04-05.mp3"],
         ["audio_2024-01-02_03-04-05.mp4"]) := by decide

example :
    (download_from_youtube "ffmpeg" false
      { title := "a/b c", timestamp := "T",
        audioStreams := ["128kbps"], videoStreams := ["720p", "1080p"],
        ffmpegExitCode := 1 }).map (fun r => (r.output_filename, r.removedFiles, r.transcodeError))
      = some ("a_b_c_T.mkv", ["video_T.mp4", "audio_T.mp4"], none) := by decide

end Scratch
